import Mathlib

/-!
Shallow embedding of the `drun` tool (`src/main.go`): the data model of a
container descriptor as decoded from the daemon inspect output, the
command synthesizer `generateRunCommand`, the environment deny-list
predicate `shouldSkipEnv`, the interactive confirmation `confirmExecution`,
and the descriptor loader `getContainerInfo`.

Modelling conventions:
  * Go strings are Lean `String`s; byte slicing in `strings.TrimPrefix` is
    modelled on the character list (equivalent for well-formed UTF-8).
  * The Go map `PortBindings map[string][]Port` is modelled as an
    association list `List (String × List Port)`; the order of the list is
    the iteration order the Go runtime chooses for the `range` loop in
    `generateRunCommand`.  Two association lists that are permutations of
    each other denote the same Go map value, since Go map iteration order
    is unspecified and varies between otherwise identical runs.
  * External effects (process execution, JSON decoding, reading stdin) are
    modelled by passing their results as explicit inputs.
  * `strings.ToLower` and `strings.TrimSpace` are modelled on the ASCII
    fragment actually exercised by the confirmation protocol.
-/

/-- Go `type Port`: fields `HostIp` / `HostPort` of a single host binding. -/
structure Port where
  hostIP : String
  hostPort : String
deriving DecidableEq

/-- Go `type RestartPolicy`. -/
structure RestartPolicy where
  name : String
  maximumRetryCount : Int
deriving DecidableEq

/-- Go `type NetworkInfo`. -/
structure NetworkInfo where
  networkID : String
deriving DecidableEq

/-- The `Config` sub-struct of Go `type ContainerInfo`. -/
structure Config where
  image : String
  cmd : List String
  env : List String
deriving DecidableEq

/-- The `HostConfig` sub-struct of Go `type ContainerInfo`.  `portBindings`
is an association list standing for the Go map, in runtime iteration
order. -/
structure HostConfig where
  binds : List String
  portBindings : List (String × List Port)
  restartPolicy : RestartPolicy
  networkMode : String
  privileged : Bool
  publishAllPorts : Bool
deriving DecidableEq

/-- The `NetworkSettings` sub-struct of Go `type ContainerInfo`. -/
structure NetworkSettings where
  networks : List (String × NetworkInfo)
deriving DecidableEq

/-- Go `type ContainerInfo`: the container descriptor decoded from the
daemon inspect output. -/
structure ContainerInfo where
  config : Config
  hostConfig : HostConfig
  networkSettings : NetworkSettings
  name : String
deriving DecidableEq

/-- Go `strings.TrimPrefix(s, pre)`: drop `pre` from the front of `s` when
it is a prefix, otherwise return `s` unchanged. -/
def trimPrefixStr (s pre : String) : String :=
  if pre.data.isPrefixOf s.data then String.mk (s.data.drop pre.data.length) else s

/-- Go `shouldSkipEnv` (lines 225–240): true when the entry starts with one
of the four fixed deny patterns. -/
def shouldSkipEnv (env : String) : Bool :=
  ["PATH=", "HOSTNAME=", "HOME=", "TERM="].any fun pattern => pattern.data.isPrefixOf env.data

/-- The deny-list of environment keys as the spec words it: an entry is
denied when its key, matched as the case-sensitive pattern `KEY=`, is one
of these four names. -/
def denyList : List String :=
  ["PATH", "HOSTNAME", "HOME", "TERM"]

/-- Spec-level phrasing of the deny predicate: some deny-listed key,
extended with `=`, is a prefix of the entry. -/
def deniedEnv (env : String) : Bool :=
  denyList.any fun key => (key ++ "=").data.isPrefixOf env.data

/-- Tokens appended for the restart policy (lines 181–183 of the source). -/
def restartSection (p : RestartPolicy) : List String :=
  if p.name ≠ "" then ["--restart", p.name] else []

/-- Tokens appended by the volume-bind loop (lines 185–187). -/
def bindSection (binds : List String) : List String :=
  binds.flatMap fun bind => ["-v", bind]

/-- Tokens contributed by the inner loop over the host bindings of one
container port (lines 190–195): one `-p hostPort:port` per non-empty host
port. -/
def portEntryFlags (port : String) (bindings : List Port) : List String :=
  bindings.flatMap fun binding =>
    if binding.hostPort ≠ "" then ["-p", binding.hostPort ++ ":" ++ port] else []

/-- Tokens appended by the port-binding double loop (lines 189–196), in the
iteration order recorded in the association list. -/
def portSection (portBindings : List (String × List Port)) : List String :=
  portBindings.flatMap fun entry => portEntryFlags entry.1 entry.2

/-- Tokens appended by the environment loop (lines 198–202). -/
def envSection (envs : List String) : List String :=
  envs.flatMap fun env => if !shouldSkipEnv env then ["-e", env] else []

/-- Token appended for `Privileged` (lines 204–206). -/
def privilegedSection (b : Bool) : List String :=
  if b then ["--privileged"] else []

/-- Token appended for `PublishAllPorts` (lines 208–210). -/
def publishAllSection (b : Bool) : List String :=
  if b then ["-P"] else []

/-- Tokens appended for `NetworkMode` (lines 212–214). -/
def networkSection (mode : String) : List String :=
  if mode ≠ "" ∧ mode ≠ "default" then ["--network", mode] else []

/-- Tokens appended for the trailing command (lines 218–220). -/
def cmdSection (cmd : List String) : List String :=
  if cmd.length > 0 then cmd else []

/-- Go `generateRunCommand`, before the final `strings.Join`: the ordered
token list built by the sequence of appends in lines 174–220. -/
def generateRunCommandParts (info : ContainerInfo) : List String :=
  ["docker", "run", "-d", "--name", trimPrefixStr info.name "/"]
    ++ restartSection info.hostConfig.restartPolicy
    ++ bindSection info.hostConfig.binds
    ++ portSection info.hostConfig.portBindings
    ++ envSection info.config.env
    ++ privilegedSection info.hostConfig.privileged
    ++ publishAllSection info.hostConfig.publishAllPorts
    ++ networkSection info.hostConfig.networkMode
    ++ [info.config.image]
    ++ cmdSection info.config.cmd

/-- Go `generateRunCommand`: the token list joined with single spaces
(`strings.Join(parts, " ")`, line 222). -/
def generateRunCommand (info : ContainerInfo) : String :=
  String.intercalate " " (generateRunCommandParts info)

/-- The tokens of the synthesized command that precede the environment
flags: everything up to and including the port section. -/
def partsBeforeEnv (info : ContainerInfo) : List String :=
  ["docker", "run", "-d", "--name", trimPrefixStr info.name "/"]
    ++ restartSection info.hostConfig.restartPolicy
    ++ bindSection info.hostConfig.binds
    ++ portSection info.hostConfig.portBindings

/-- The tokens of the synthesized command that follow the environment
flags: privileged, publish-all, network, image and trailing command. -/
def partsAfterEnv (info : ContainerInfo) : List String :=
  privilegedSection info.hostConfig.privileged
    ++ publishAllSection info.hostConfig.publishAllPorts
    ++ networkSection info.hostConfig.networkMode
    ++ [info.config.image]
    ++ cmdSection info.config.cmd

/-- ASCII fragment of Go `unicode.IsSpace`, as used by `strings.TrimSpace`
on the confirmation line. -/
def isGoSpace (c : Char) : Bool :=
  c = ' ' || c = '\t' || c = '\n' || c = '\x0b' || c = '\x0c' || c = '\r'

/-- Go `strings.TrimSpace`, restricted to ASCII whitespace: drop leading
and trailing space characters. -/
def trimSpace (s : String) : String :=
  String.mk (((s.data.dropWhile isGoSpace).reverse.dropWhile isGoSpace).reverse)

/-- Go `strings.ToLower`, restricted to ASCII letters (the fragment the
confirmation protocol exercises). -/
def goToLower (s : String) : String :=
  String.mk (s.data.map Char.toLower)

/-- Go `confirmExecution` (lines 242–253).  The read line is passed
explicitly: `none` models a failed `ReadString` (which returns `false`
regardless of any partial data), `some response` a successful read of
`response`, trailing newline included. -/
def confirmExecution (line : Option String) : Bool :=
  match line with
  | none => false
  | some response =>
    let r := trimSpace (goToLower response)
    r == "y" || r == "yes"

/-- Outcome of the tail of `main` (lines 117–127): whether the synthesized
command was handed to the executor, and the process exit status. -/
structure RunResult where
  executed : Bool
  exitCode : Nat
deriving DecidableEq

/-- The confirmation-and-execution tail of `main` (lines 117–127): on
decline, return from `main` (exit 0) without executing; on acceptance,
execute and exit 1 when execution fails, 0 when it succeeds. -/
def confirmAndExecute (line : Option String) (execOk : Bool) : RunResult :=
  if confirmExecution line then
    if execOk then { executed := true, exitCode := 0 }
    else { executed := true, exitCode := 1 }
  else { executed := false, exitCode := 0 }

/-- Failure modes of `getContainerInfo` (lines 130–147): the inspect
invocation erroring, the response failing to decode, and an empty match
array. -/
inductive LoadError where
  | queryFailed
  | decodeFailed
  | notFound
deriving DecidableEq

/-- Go `getContainerInfo` (lines 130–147).  The external steps are passed
as one input: `Except.error` models `cmd.Output()` failing, `.ok none`
models `json.Unmarshal` failing, `.ok (some containers)` a successfully
decoded match array.  On a non-empty array the first element is returned. -/
def getContainerInfo (inspectResult : Except String (Option (List ContainerInfo))) :
    Except LoadError ContainerInfo :=
  match inspectResult with
  | .error _ => .error .queryFailed
  | .ok none => .error .decodeFailed
  | .ok (some []) => .error .notFound
  | .ok (some (c :: _)) => .ok c

/-- Two association-list views of a port-binding map carry the same
synthesis-relevant data: same container ports in the same iteration order,
and bindings that agree pairwise on the host port (the host interface is
free to differ). -/
def portsAgree (a b : List (String × List Port)) : Prop :=
  List.Forall₂
    (fun x y => x.1 = y.1 ∧ List.Forall₂ (fun p q => p.hostPort = q.hostPort) x.2 y.2) a b

/-- The descriptor with the restart-policy retry count replaced and every
other field unchanged. -/
def withRetryCount (d : ContainerInfo) (r : Int) : ContainerInfo :=
  { d with
    hostConfig :=
      { d.hostConfig with
        restartPolicy := { d.hostConfig.restartPolicy with maximumRetryCount := r } } }

/-- The end-to-end example descriptor of the spec (§8): name `/app`, image
`app:latest`, one bind, `PATH` and `KEY` environment entries, one port
binding, restart policy `always`, default network. -/
def exampleDescriptor : ContainerInfo :=
  { config := { image := "app:latest", cmd := ["serve"], env := ["PATH=/usr/bin", "KEY=1"] },
    hostConfig := { binds := ["/data:/data"],
                    portBindings := [("80/tcp", [{ hostIP := "", hostPort := "8080" }])],
                    restartPolicy := { name := "always", maximumRetryCount := 0 },
                    networkMode := "default", privileged := false,
                    publishAllPorts := false },
    networkSettings := { networks := [] },
    name := "/app" }

/-- One iteration order the Go runtime may pick for a two-key port map. -/
def iterationOrderA : List (String × List Port) :=
  [("443/tcp", [{ hostIP := "", hostPort := "8443" }]),
   ("80/tcp", [{ hostIP := "", hostPort := "8080" }])]

/-- The other iteration order of the same two-key port map. -/
def iterationOrderB : List (String × List Port) :=
  [("80/tcp", [{ hostIP := "", hostPort := "8080" }]),
   ("443/tcp", [{ hostIP := "", hostPort := "8443" }])]

/-- A descriptor whose port map has two keys, seen in iteration order A. -/
def cexDescriptorA : ContainerInfo :=
  { config := { image := "app:latest", cmd := [], env := [] },
    hostConfig := { binds := [],
                    portBindings := iterationOrderA,
                    restartPolicy := { name := "", maximumRetryCount := 0 },
                    networkMode := "", privileged := false,
                    publishAllPorts := false },
    networkSettings := { networks := [] },
    name := "/app" }

/-- The same descriptor seen in iteration order B. -/
def cexDescriptorB : ContainerInfo :=
  { cexDescriptorA with
    hostConfig := { cexDescriptorA.hostConfig with portBindings := iterationOrderB } }

theorem shouldSkipEnv_eq_deniedEnv (e : String) : shouldSkipEnv e = deniedEnv e := rfl

theorem restartSection_congr {p q : RestartPolicy} (h : p.name = q.name) :
    restartSection p = restartSection q := by
  simp only [restartSection, h]

theorem portEntryFlags_congr (port : String) {a b : List Port}
    (h : List.Forall₂ (fun p q => p.hostPort = q.hostPort) a b) :
    portEntryFlags port a = portEntryFlags port b := by
  induction h with
  | nil => rfl
  | cons hpq _ ih =>
    show (if _ then _ else _) ++ portEntryFlags port _
        = (if _ then _ else _) ++ portEntryFlags port _
    rw [hpq, ih]

theorem portSection_congr {a b : List (String × List Port)} (h : portsAgree a b) :
    portSection a = portSection b := by
  induction h with
  | nil => rfl
  | cons hxy _ ih =>
    show portEntryFlags _ _ ++ portSection _ = portEntryFlags _ _ ++ portSection _
    rw [hxy.1, portEntryFlags_congr _ hxy.2, ih]

theorem perm_eq_of_length_le_one {α : Type} {l1 l2 : List α}
    (h : l1.Perm l2) (hlen : l1.length ≤ 1) : l1 = l2 := by
  cases l1 with
  | nil => exact (h.symm.eq_nil).symm
  | cons a t =>
    cases t with
    | nil => exact (List.perm_singleton.mp h.symm).symm
    | cons b t2 => simp [List.length_cons] at hlen

/-- C1 counterexample: the synthesizer is not a function of the port-binding
map alone.  The two association lists denote the same two-key Go map (they
are permutations of each other), so two calls on an identical descriptor
may observe either iteration order; the synthesized byte sequences
differ. -/
theorem synthesis_not_order_independent :
    iterationOrderA.Perm iterationOrderB
      ∧ generateRunCommand cexDescriptorA ≠ generateRunCommand cexDescriptorB :=
  ⟨List.Perm.swap _ _ _, by decide⟩

/-- C1 (amended): synthesis is deterministic given the iteration order, and
for a port-binding map with at most one container-port key the output is
byte-identical under every iteration order the runtime may choose. -/
theorem synthesis_deterministic_small_port_map (d : ContainerInfo)
    (pb : List (String × List Port))
    (hperm : d.hostConfig.portBindings.Perm pb)
    (hlen : d.hostConfig.portBindings.length ≤ 1) :
    generateRunCommand d
      = generateRunCommand { d with hostConfig := { d.hostConfig with portBindings := pb } } := by
  have h := perm_eq_of_length_le_one hperm hlen
  subst h
  rfl

theorem synthesis_deterministic_small_port_map_witness :
    generateRunCommand exampleDescriptor
      = generateRunCommand
          { exampleDescriptor with
            hostConfig :=
              { exampleDescriptor.hostConfig with
                portBindings := [("80/tcp", [{ hostIP := "", hostPort := "8080" }])] } } :=
  synthesis_deterministic_small_port_map exampleDescriptor
    [("80/tcp", [{ hostIP := "", hostPort := "8080" }])] (List.Perm.refl _) (by decide)

/-- C2: on the end-to-end example descriptor of the spec the synthesizer
produces exactly the expected token sequence and the expected joined
command string. -/
theorem end_to_end_example :
    generateRunCommandParts exampleDescriptor
      = ["docker", "run", "-d", "--name", "app", "--restart", "always",
         "-v", "/data:/data", "-p", "8080:80/tcp", "-e", "KEY=1",
         "app:latest", "serve"]
    ∧ generateRunCommand exampleDescriptor
      = "docker run -d --name app --restart always -v /data:/data -p 8080:80/tcp -e KEY=1 app:latest serve" := by
  constructor
  · decide
  · decide

/-- C3: the synthesized command splits around the environment flags; the
environment flags are exactly the descriptor entries not matching the
deny-list, in descriptor order, each emitted verbatim behind a `-e` flag;
and the code predicate `shouldSkipEnv` agrees with the spec-level
deny-list predicate everywhere. -/
theorem env_denylist (d : ContainerInfo) :
    generateRunCommandParts d
      = partsBeforeEnv d ++ envSection d.config.env ++ partsAfterEnv d
    ∧ envSection d.config.env
      = (d.config.env.filter fun e => !deniedEnv e).flatMap (fun e => ["-e", e])
    ∧ ∀ e, shouldSkipEnv e = deniedEnv e := by
  refine ⟨?_, ?_, fun e => shouldSkipEnv_eq_deniedEnv e⟩
  · simp [generateRunCommandParts, partsBeforeEnv, partsAfterEnv, List.append_assoc]
  · induction d.config.env with
    | nil => rfl
    | cons e es ih =>
      by_cases h : deniedEnv e = true
      · simp [envSection, List.filter_cons, shouldSkipEnv_eq_deniedEnv, h] at ih ⊢
        exact ih
      · simp [envSection, List.filter_cons, shouldSkipEnv_eq_deniedEnv, h] at ih ⊢
        exact ih

/-- C4: within one container-port entry, a binding with empty host port
contributes no tokens and a binding with non-empty host port contributes
exactly one `-p hostPort:containerPortSpec` flag; an entry all of whose
bindings have empty host ports contributes nothing. -/
theorem port_binding_filter (port : String) (bindings : List Port) :
    portEntryFlags port bindings
      = (bindings.filter fun b => b.hostPort != "").flatMap
          (fun b => ["-p", b.hostPort ++ ":" ++ port])
    ∧ ((∀ b ∈ bindings, b.hostPort = "") → portEntryFlags port bindings = []) := by
  have h1 : portEntryFlags port bindings
      = (bindings.filter fun b => b.hostPort != "").flatMap
          (fun b => ["-p", b.hostPort ++ ":" ++ port]) := by
    induction bindings with
    | nil => rfl
    | cons b bs ih =>
      by_cases h : b.hostPort = ""
      · simp [portEntryFlags, List.filter_cons, h] at ih ⊢
        exact ih
      · simp [portEntryFlags, List.filter_cons, h] at ih ⊢
        exact ih
  refine ⟨h1, ?_⟩
  intro hall
  rw [h1]
  have h2 : bindings.filter (fun b => b.hostPort != "") = [] := by
    rw [List.filter_eq_nil_iff]
    intro b hb
    simp [hall b hb]
  rw [h2]
  rfl

theorem port_binding_filter_witness :
    portEntryFlags "80/tcp" [{ hostIP := "", hostPort := "" }] = []
    ∧ portEntryFlags "80/tcp" [{ hostIP := "", hostPort := "8080" }] = ["-p", "8080:80/tcp"] :=
  ⟨(port_binding_filter "80/tcp" [{ hostIP := "", hostPort := "" }]).2 (by decide),
   ((port_binding_filter "80/tcp" [{ hostIP := "", hostPort := "8080" }]).1).trans (by decide)⟩

/-- C5: the fourth and fifth tokens of every synthesized command are the
name flag and the container name with one leading path separator stripped;
stripping maps `/web` to `web`, leaves `web` unchanged, removes exactly one
leading separator in general, and is the identity on names without one. -/
theorem name_normalization (d : ContainerInfo) (s : String) :
    (generateRunCommandParts d)[3]? = some "--name"
    ∧ (generateRunCommandParts d)[4]? = some (trimPrefixStr d.name "/")
    ∧ trimPrefixStr "/web" "/" = "web"
    ∧ trimPrefixStr "web" "/" = "web"
    ∧ trimPrefixStr ("/" ++ s) "/" = s
    ∧ ("/".data.isPrefixOf s.data = false → trimPrefixStr s "/" = s) := by
  refine ⟨by simp [generateRunCommandParts], by simp [generateRunCommandParts],
    by decide, by decide, ?_, ?_⟩
  · show (if _ then _ else _) = s
    rw [if_pos]
    · rfl
    · show (['/'].isPrefixOf ('/' :: s.data)) = true
      simp [List.isPrefixOf]
  · intro h
    show (if _ then _ else _) = s
    rw [if_neg]
    simp [h]

theorem name_normalization_witness :
    trimPrefixStr "web" "/" = "web" ∧ trimPrefixStr ("/" ++ "web") "/" = "web" :=
  ⟨(name_normalization exampleDescriptor "web").2.2.2.2.2 (by decide),
   (name_normalization exampleDescriptor "web").2.2.2.2.1⟩

/-- C6: the empty network mode and the `default` sentinel produce no
network flag; every other mode produces exactly one network flag carrying
that mode. -/
theorem network_mode_flag (mode : String) :
    networkSection "" = []
    ∧ networkSection "default" = []
    ∧ (mode ≠ "" → mode ≠ "default" → networkSection mode = ["--network", mode]) := by
  refine ⟨by decide, by decide, ?_⟩
  intro h1 h2
  simp [networkSection, h1, h2]

theorem network_mode_flag_witness :
    networkSection "bridge2" = ["--network", "bridge2"] :=
  (network_mode_flag "bridge2").2.2 (by decide) (by decide)

/-- C7: an empty restart-policy name yields no restart flag; a non-empty
name yields exactly the flag with the name alone, for every retry count;
and changing only the retry count never changes the synthesized command. -/
theorem restart_policy_flag (name : String) (r r2 : Int) (d : ContainerInfo) :
    restartSection { name := "", maximumRetryCount := r } = []
    ∧ (name ≠ "" →
        restartSection { name := name, maximumRetryCount := r } = ["--restart", name])
    ∧ restartSection { name := name, maximumRetryCount := r }
        = restartSection { name := name, maximumRetryCount := r2 }
    ∧ generateRunCommand (withRetryCount d r) = generateRunCommand d := by
  refine ⟨by simp [restartSection], ?_, rfl, rfl⟩
  intro h
  simp [restartSection, h]

theorem restart_policy_flag_witness :
    restartSection { name := "always", maximumRetryCount := 0 } = ["--restart", "always"]
    ∧ generateRunCommand (withRetryCount exampleDescriptor 7)
        = generateRunCommand exampleDescriptor :=
  ⟨(restart_policy_flag "always" 0 5 exampleDescriptor).2.1 (by decide),
   (restart_policy_flag "always" 7 0 exampleDescriptor).2.2.2⟩

/-- C8: a successfully read response is accepted exactly when it lowers
and trims to `y` or `yes`; a read failure is a decline; concrete accepted
and declined responses behave as expected; and any declined confirmation
skips execution and exits with status zero. -/
theorem confirmation_gate (resp : String) (line : Option String) (execOk : Bool) :
    (confirmExecution (some resp) = true
      ↔ (trimSpace (goToLower resp) = "y" ∨ trimSpace (goToLower resp) = "yes"))
    ∧ confirmExecution none = false
    ∧ confirmExecution (some " YES\n") = true
    ∧ confirmExecution (some "no\n") = false
    ∧ (confirmExecution line = false →
        confirmAndExecute line execOk = { executed := false, exitCode := 0 }) := by
  refine ⟨?_, rfl, by decide, by decide, ?_⟩
  · simp [confirmExecution]
  · intro h
    simp [confirmAndExecute, h]

theorem confirmation_gate_witness :
    confirmAndExecute (some "no\n") true = { executed := false, exitCode := 0 } :=
  (confirmation_gate "" (some "no\n") true).2.2.2.2 (by decide)

/-- C9: the loader reports `notFound` exactly when the inspect invocation
succeeded and its output decoded to an empty match array; on a non-empty
decoded array it returns the first element. -/
theorem loader_first_match (r : Except String (Option (List ContainerInfo)))
    (c : ContainerInfo) (rest : List ContainerInfo) :
    (getContainerInfo r = .error .notFound ↔ r = .ok (some []))
    ∧ getContainerInfo (.ok (some (c :: rest))) = .ok c := by
  refine ⟨?_, rfl⟩
  cases r with
  | error e => simp [getContainerInfo]
  | ok o =>
    cases o with
    | none => simp [getContainerInfo]
    | some l =>
      cases l with
      | nil => simp [getContainerInfo]
      | cons c2 rest2 => simp [getContainerInfo]

theorem loader_first_match_witness :
    getContainerInfo (.ok (some [])) = .error .notFound
    ∧ getContainerInfo (.ok (some [exampleDescriptor])) = .ok exampleDescriptor :=
  ⟨(loader_first_match (.ok (some [])) exampleDescriptor []).1.mpr rfl,
   (loader_first_match (.ok (some [])) exampleDescriptor []).2⟩

/-- C10: two descriptors that agree on every field the synthesis algorithm
reads — name, image, command, environment, binds, the port map up to host
interfaces, the restart-policy name, network mode, privileged and
publish-all — synthesize the same command, whatever their network-settings
data, host interfaces and retry counts are. -/
theorem unused_fields_no_influence (d1 d2 : ContainerInfo)
    (hname : d1.name = d2.name)
    (himage : d1.config.image = d2.config.image)
    (hcmd : d1.config.cmd = d2.config.cmd)
    (henv : d1.config.env = d2.config.env)
    (hbinds : d1.hostConfig.binds = d2.hostConfig.binds)
    (hports : portsAgree d1.hostConfig.portBindings d2.hostConfig.portBindings)
    (hrestart : d1.hostConfig.restartPolicy.name = d2.hostConfig.restartPolicy.name)
    (hnet : d1.hostConfig.networkMode = d2.hostConfig.networkMode)
    (hpriv : d1.hostConfig.privileged = d2.hostConfig.privileged)
    (hpub : d1.hostConfig.publishAllPorts = d2.hostConfig.publishAllPorts) :
    generateRunCommand d1 = generateRunCommand d2 := by
  rw [generateRunCommand, generateRunCommand, generateRunCommandParts, generateRunCommandParts,
    hname, himage, hcmd, henv, hbinds, hnet, hpriv, hpub,
    restartSection_congr hrestart, portSection_congr hports]

/-- A variant of the example descriptor that differs only in fields the
synthesizer never reads: host interface of the port binding, retry count,
and network-settings data. -/
def exampleDescriptorShadow : ContainerInfo :=
  { config := { image := "app:latest", cmd := ["serve"], env := ["PATH=/usr/bin", "KEY=1"] },
    hostConfig := { binds := ["/data:/data"],
                    portBindings := [("80/tcp", [{ hostIP := "0.0.0.0", hostPort := "8080" }])],
                    restartPolicy := { name := "always", maximumRetryCount := 11 },
                    networkMode := "default", privileged := false,
                    publishAllPorts := false },
    networkSettings := { networks := [("default", { networkID := "abc123" })] },
    name := "/app" }

theorem unused_fields_no_influence_witness :
    generateRunCommand exampleDescriptor = generateRunCommand exampleDescriptorShadow :=
  unused_fields_no_influence exampleDescriptor exampleDescriptorShadow rfl rfl rfl rfl rfl
    (List.Forall₂.cons ⟨rfl, List.Forall₂.cons rfl List.Forall₂.nil⟩ List.Forall₂.nil)
    rfl rfl rfl rfl
